import Mathlib

/-! Shallow embedding of the UI-state logic of the personal portfolio website
(Zheyuan-Lin/jenkin-ai-finetune): the contact-form validator and submit flow
(next-personal-website Contact component in Hero.tsx), the theme manager,
typing effect, intersection-observer animators and project gallery
(persona-website personal.js, Projects.tsx, and the Experience component).

Strings are modelled as `List Char`.  Stateful React/DOM code is modelled
as explicit state records with step functions; the injected asynchronous
submission is modelled by an explicit outcome parameter.
-/

namespace Portfolio

/-- JavaScript whitespace characters relevant to `String.prototype.trim`
and the `\s` / `\S` regex classes (ASCII subset). -/
def isSpaceChar (c : Char) : Bool :=
  c = ' ' || c = '\t' || c = '\n' || c = '\r' || c = '\x0b' || c = '\x0c'

/-- JavaScript `String.prototype.trim`: strip whitespace from both ends. -/
def jsTrim (s : List Char) : List Char :=
  ((s.dropWhile isSpaceChar).reverse.dropWhile isSpaceChar).reverse

/-- A string is empty or whitespace-only. -/
def allSpace (s : List Char) : Bool :=
  s.all isSpaceChar

/-- Regex `\S+@\S+\.\S+` tested unanchored against `s`
(`/\S+@\S+\.\S+/.test(email)` in the Contact component's `validateForm`).
A match exists iff some `'@'` at position `i` and some `'.'` at position `j`
satisfy: a non-space character sits just before the `'@'` (the `\S+` before
`@`), at least one character sits strictly between them and all of those are
non-space (the `\S+` between `@` and `.`), and a non-space character sits
just after the `'.'` (the `\S+` after `.`). -/
def emailRegexTest (s : List Char) : Bool :=
  let n := s.length
  (List.range n).any fun i =>
    (List.range n).any fun j =>
      decide (1 ≤ i) && decide (i + 1 < j) && decide (j + 1 < n) &&
      (s.getD i ' ' == '@') && (s.getD j ' ' == '.') &&
      !(isSpaceChar (s.getD (i - 1) ' ')) &&
      !(isSpaceChar (s.getD (j + 1) ' ')) &&
      ((List.range n).all fun k =>
        !(decide (i < k) && decide (k < j)) || !(isSpaceChar (s.getD k ' ')))

/-- The Contact component's `formData` state: name, email, message. -/
structure FormData where
  name : List Char
  email : List Char
  message : List Char
  deriving DecidableEq, Repr

/-- The Contact component's `errors` state: an optional message per field. -/
structure FormErrors where
  name : Option (List Char)
  email : Option (List Char)
  message : Option (List Char)
  deriving DecidableEq, Repr

/-- Function `validateForm` from the Contact component: name and message are required
(non-empty after trim); email is required and must pass the regex test. -/
def validateForm (fd : FormData) : FormErrors where
  name :=
    if (jsTrim fd.name).isEmpty then some "Name is required".data else none
  email :=
    if (jsTrim fd.email).isEmpty then some "Email is required".data
    else if !(emailRegexTest fd.email) then some "Email is invalid".data
    else none
  message :=
    if (jsTrim fd.message).isEmpty then some "Message is required".data else none

/-- Emptiness check `Object.keys(newErrors).length === 0`: keys are assigned only for
invalid fields, so the map is empty iff no field has an error. -/
def errorsEmpty (e : FormErrors) : Bool :=
  e.name.isNone && e.email.isNone && e.message.isNone

/-- The Contact component's `submitStatus` values (`null` is `Option.none`). -/
inductive Status where
  | success
  | error
  deriving DecidableEq, Repr

/-- The Contact component's full state. -/
structure ContactState where
  formData : FormData
  errors : FormErrors
  isSubmitting : Bool
  submitStatus : Option Status
  deriving DecidableEq, Repr

/-- Outcome of the injected asynchronous submission operation
(the stubbed `await new Promise(...)`: resolution or rejection). -/
inductive SubmitOutcome where
  | ok
  | fail
  deriving DecidableEq, Repr

/-- Observable run of one `handleSubmit` call: whether the submission
operation was invoked, the state during the in-flight phase
(`none` when validation blocked the submit), and the settled state. -/
structure SubmitRun where
  invoked : Bool
  duringSubmit : Option ContactState
  final : ContactState
  deriving DecidableEq, Repr

/-- The cleared form written by `setFormData({ name: '', email: '', message: '' })`. -/
def emptyFormData : FormData :=
  ⟨[], [], []⟩

/-- Function `handleSubmit` from the Contact component.  It always runs
`validateForm` (which stores the fresh error map); on any error it returns
early.  Otherwise it sets `isSubmitting`, resets `submitStatus`, awaits the
submission: on success it records `success` and clears the fields, on
rejection it records `error` and leaves the fields alone; the `finally`
block re-enables the submit control. -/
def handleSubmit (st : ContactState) (outcome : SubmitOutcome) : SubmitRun :=
  let errs := validateForm st.formData
  let stV : ContactState := { st with errors := errs }
  if !(errorsEmpty errs) then
    ⟨false, none, stV⟩
  else
    let st1 : ContactState := { stV with isSubmitting := true, submitStatus := none }
    let st2 : ContactState :=
      match outcome with
      | .ok => { st1 with submitStatus := some .success, formData := emptyFormData }
      | .fail => { st1 with submitStatus := some .error }
    ⟨true, some st1, { st2 with isSubmitting := false }⟩

/-- The three form fields. -/
inductive Field where
  | name
  | email
  | message
  deriving DecidableEq, Repr

/-- Look up one field's error. -/
def getError (e : FormErrors) : Field → Option (List Char)
  | .name => e.name
  | .email => e.email
  | .message => e.message

/-- Write one field of the form data (`setFormData(prev => ({...prev, [name]: value}))`). -/
def setFormField (fd : FormData) : Field → List Char → FormData
  | .name, v => { fd with name := v }
  | .email, v => { fd with email := v }
  | .message, v => { fd with message := v }

/-- Set one field's error to `undefined`
(`setErrors(prev => ({...prev, [name]: undefined}))`). -/
def clearError (e : FormErrors) : Field → FormErrors
  | .name => { e with name := none }
  | .email => { e with email := none }
  | .message => { e with message := none }

/-- Function `handleChange` from the Contact component: store the new value, and if
the edited field currently has an error, clear that error — without looking
at the new value. -/
def handleChange (st : ContactState) (f : Field) (v : List Char) : ContactState :=
  let fd := setFormField st.formData f v
  let errs := if (getError st.errors f).isSome then clearError st.errors f else st.errors
  { st with formData := fd, errors := errs }

/-! Theme manager (personal.js lines 186 to 207). -/

/-- JavaScript truthiness of `localStorage.getItem('theme')`: `null` and the
empty string are falsy, any other string is truthy. -/
def jsTruthyStr : Option (List Char) → Bool
  | none => false
  | some s => !s.isEmpty

/-- Initialization: `savedTheme === 'dark' || (!savedTheme && prefersDarkScheme.matches)`
decides whether the `dark-mode` class is added to the body. -/
def themeInitDark (saved : Option (List Char)) (prefersDark : Bool) : Bool :=
  (saved == some "dark".data) || (!(jsTruthyStr saved) && prefersDark)

/-- Theme manager state: whether the body carries `dark-mode`, the toggle
icon text, and the persisted `localStorage` value. -/
structure ThemeState where
  dark : Bool
  icon : List Char
  saved : Option (List Char)
  deriving DecidableEq, Repr

/-- The displayed theme as a string, for comparison with the persisted value. -/
def displayedTheme (st : ThemeState) : List Char :=
  if st.dark then "dark".data else "light".data

/-- The theme-toggle click listener: toggle `dark-mode` on the body, then
branch on the new state to set the icon and persist `'dark'` or `'light'`. -/
def toggleTheme (st : ThemeState) : ThemeState :=
  let d := !st.dark
  if d then ⟨d, "☀️".data, some "dark".data⟩
  else ⟨d, "🌙".data, some "light".data⟩

/-! Intersection-observer animators.

`personal.js` has three observers (skill, timeline, section) that mark an
element and then `unobserve` it; the React `Experience` component
(src/unnamed/part_000) and `Skills.tsx` observers mark an element on every
intersecting entry and never unobserve.  Per-element state: whether the
observer still observes the element, whether it is marked visible, and how
many times the marking action has run. -/

structure ObservedElem where
  observed : Bool
  visible : Bool
  markCount : Nat
  deriving DecidableEq, Repr

/-- One `timelineObserver` (equally `skillObserver` / `sectionObserver`)
callback delivery for one entry of `personal.js`: when the element is still
observed and the entry is intersecting, mark it visible and unobserve it;
otherwise do nothing. -/
def timelineObsStep (e : ObservedElem) (isIntersecting : Bool) : ObservedElem :=
  if e.observed && isIntersecting then
    ⟨false, true, e.markCount + 1⟩
  else
    e

/-- One observer callback delivery of the React `Experience` component
(also the `Skills.tsx` shape): when the element is still observed and the
entry is intersecting, mark it visible — the element stays observed. -/
def experienceObsStep (e : ObservedElem) (isIntersecting : Bool) : ObservedElem :=
  if e.observed && isIntersecting then
    ⟨e.observed, true, e.markCount + 1⟩
  else
    e

/-- Deliver a sequence of intersection events to one element. -/
def obsRun (step : ObservedElem → Bool → ObservedElem)
    (e : ObservedElem) (events : List Bool) : ObservedElem :=
  events.foldl step e

/-! Typing effect (personal.js typeWriter, Hero.tsx useEffect). -/

/-- The fixed hero string of `Hero.tsx`. -/
def heroFullText : List Char :=
  "I'm Zheyuan Lin, a Computer Science Student".data

/-- The terminal cursor marker `typeWriter` appends when typing completes. -/
def cursorMarker : List Char :=
  "<span class=\"cursor\">|</span>".data

/-- Typing-effect state: the revealed-character count `i`, the displayed
text, and whether the effect has finished (no timer is pending). -/
structure TypeState where
  i : Nat
  disp : List Char
  done : Bool
  deriving DecidableEq, Repr

/-- One `typeWriter` tick over source string `src`: while `i < src.length`,
append `src.charAt(i)`, increment `i` and reschedule; once `i` reaches the
length, append the cursor marker and stop rescheduling.  A finished state
has no pending timer, so it is a fixed point. -/
def typeWriterStep (src : List Char) (st : TypeState) : TypeState :=
  if st.done then st
  else if st.i < src.length then ⟨st.i + 1, st.disp ++ [src.getD st.i ' '], false⟩
  else ⟨st.i, st.disp ++ cursorMarker, true⟩

/-- The typing effect after `n` ticks, from the cleared element. -/
def typeRun (src : List Char) : Nat → TypeState
  | 0 => ⟨0, [], false⟩
  | n + 1 => typeWriterStep src (typeRun src n)

/-! Project gallery. -/

/-- Modal state of `Projects.tsx`: the bound project (by title) and whether
the modal is open. -/
structure GalleryState where
  selectedProject : Option (List Char)
  isModalOpen : Bool
  deriving DecidableEq, Repr

/-- Function `handleProjectClick`: bind the clicked project and open the modal. -/
def handleProjectClick (_st : GalleryState) (p : List Char) : GalleryState :=
  ⟨some p, true⟩

/-- Function `closeModal`: close the modal and unbind the project. -/
def closeModal (_st : GalleryState) : GalleryState :=
  ⟨none, false⟩

/-- User events on the React gallery. -/
inductive GalleryEvent where
  | click (p : List Char)
  | close
  deriving DecidableEq, Repr

/-- Event dispatch for the React gallery. -/
def galleryStep (st : GalleryState) : GalleryEvent → GalleryState
  | .click p => handleProjectClick st p
  | .close => closeModal st

/-- The React gallery state reached from the initial state by an event list. -/
def galleryRun (events : List GalleryEvent) : GalleryState :=
  events.foldl galleryStep ⟨none, false⟩

/-- Number of open project modals in the React gallery: the modal renders
iff `isModalOpen && selectedProject`. -/
def openModalCount (st : GalleryState) : Nat :=
  if st.isModalOpen && st.selectedProject.isSome then 1 else 0

/-- The personal.js project-card click listener: it creates a fresh modal
element and appends it to `document.body`, removing nothing.  The document
state is the list of currently attached modals (by bound project title). -/
def personaCardClick (modals : List (List Char)) (title : List Char) : List (List Char) :=
  modals ++ [title]

/-! Helper lemmas. -/

theorem emailRegexTest_spec (s : List Char) (h : emailRegexTest s = true) :
    ∃ i j, 1 ≤ i ∧ i + 1 < j ∧ j + 1 < s.length ∧
      s.getD i ' ' = '@' ∧ s.getD j ' ' = '.' := by
  unfold emailRegexTest at h
  simp only [List.any_eq_true, List.mem_range, Bool.and_eq_true,
    decide_eq_true_eq, beq_iff_eq] at h
  obtain ⟨i, _, j, _, ⟨⟨⟨⟨⟨⟨h1, h2⟩, h3⟩, h4⟩, h5⟩, -⟩, -⟩, -⟩ := h
  exact ⟨i, j, h1, h2, h3, h4, h5⟩

theorem emailRegexTest_mem_at (s : List Char) (h : emailRegexTest s = true) :
    '@' ∈ s := by
  obtain ⟨i, j, _, h2, h3, h4, _⟩ := emailRegexTest_spec s h
  have hi : i < s.length := by omega
  rw [List.getD_eq_getElem s ' ' hi] at h4
  exact h4 ▸ List.getElem_mem hi

theorem emailRegexTest_dot_after_at (s : List Char) (h : emailRegexTest s = true) :
    ∃ i j, i < j ∧ j < s.length ∧ s.getD i ' ' = '@' ∧ s.getD j ' ' = '.' := by
  obtain ⟨i, j, _, h2, h3, h4, h5⟩ := emailRegexTest_spec s h
  exact ⟨i, j, by omega, by omega, h4, h5⟩

theorem jsTrim_isEmpty_of_allSpace (s : List Char) (h : allSpace s = true) :
    (jsTrim s).isEmpty = true := by
  have h1 : s.dropWhile isSpaceChar = [] := by
    rw [List.dropWhile_eq_nil_iff]
    exact fun x hx => List.all_eq_true.mp h x hx
  unfold jsTrim
  rw [h1]
  rfl

theorem validateForm_name_of_allSpace (fd : FormData) (h : allSpace fd.name = true) :
    (validateForm fd).name = some "Name is required".data := by
  unfold validateForm
  simp [jsTrim_isEmpty_of_allSpace _ h]

theorem validateForm_message_of_allSpace (fd : FormData) (h : allSpace fd.message = true) :
    (validateForm fd).message = some "Message is required".data := by
  unfold validateForm
  simp [jsTrim_isEmpty_of_allSpace _ h]

theorem errorsEmpty_false_of_name (e : FormErrors) (h : e.name.isSome = true) :
    errorsEmpty e = false := by
  unfold errorsEmpty
  cases hn : e.name with
  | none => rw [hn] at h; exact absurd h (by simp)
  | some v => simp [hn]

theorem errorsEmpty_false_of_message (e : FormErrors) (h : e.message.isSome = true) :
    errorsEmpty e = false := by
  unfold errorsEmpty
  cases hn : e.message with
  | none => rw [hn] at h; exact absurd h (by simp)
  | some v => simp [hn]

/-! Claim theorems. -/

/-- C2: the Contact validator rejects every email string without an `'@'`,
and every email string with no `'.'` occurring after an `'@'`; concretely
`"foo"` is judged invalid and `"foo@bar.com"` valid. -/
theorem contact_email_validation (fd : FormData)
    (h : ('@' ∉ fd.email) ∨
      ¬ ∃ i j, i < j ∧ j < fd.email.length ∧
        fd.email.getD i ' ' = '@' ∧ fd.email.getD j ' ' = '.') :
    ((validateForm fd).email).isSome = true ∧
    ((validateForm (⟨"x".data, "foo".data, "x".data⟩ : FormData)).email).isSome = true ∧
    (validateForm (⟨"x".data, "foo@bar.com".data, "x".data⟩ : FormData)).email = none := by
  refine ⟨?_, by decide, by decide⟩
  have hreg : emailRegexTest fd.email = false := by
    cases hx : emailRegexTest fd.email with
    | false => rfl
    | true =>
      rcases h with h | h
      · exact absurd (emailRegexTest_mem_at _ hx) h
      · exact absurd (emailRegexTest_dot_after_at _ hx) h
  unfold validateForm
  by_cases he : (jsTrim fd.email).isEmpty
  · simp [he]
  · simp [he, hreg]

/-- C2 witness: the theorem applied to the form whose email is `"foo"`,
which contains no `'@'`. -/
theorem contact_email_validation_witness :
    ((validateForm (⟨"x".data, "foo".data, "x".data⟩ : FormData)).email).isSome = true :=
  (contact_email_validation ⟨"x".data, "foo".data, "x".data⟩ (Or.inl (by decide))).1

/-- C3: when the name or the message is empty or whitespace-only, submit is
blocked: the injected submission operation is never invoked, the form never
enters (and stays out of) the submitting state, and the blank field is
assigned a validation error. -/
theorem contact_submit_blocked (st : ContactState) (o : SubmitOutcome)
    (hidle : st.isSubmitting = false)
    (h : allSpace st.formData.name = true ∨ allSpace st.formData.message = true) :
    (handleSubmit st o).invoked = false ∧
    (handleSubmit st o).duringSubmit = none ∧
    (handleSubmit st o).final.isSubmitting = false ∧
    (allSpace st.formData.name = true →
      ((handleSubmit st o).final.errors.name).isSome = true) ∧
    (allSpace st.formData.message = true →
      ((handleSubmit st o).final.errors.message).isSome = true) := by
  have hval : errorsEmpty (validateForm st.formData) = false := by
    rcases h with h | h
    · exact errorsEmpty_false_of_name _ (by rw [validateForm_name_of_allSpace _ h]; rfl)
    · exact errorsEmpty_false_of_message _ (by rw [validateForm_message_of_allSpace _ h]; rfl)
  unfold handleSubmit
  simp only [hval, Bool.not_false, if_true]
  refine ⟨trivial, trivial, hidle, ?_, ?_⟩
  · intro hn
    rw [validateForm_name_of_allSpace _ hn]
    rfl
  · intro hm
    rw [validateForm_message_of_allSpace _ hm]
    rfl

/-- C3 witness: the theorem applied to an idle form whose name is a single
space and whose message is empty. -/
theorem contact_submit_blocked_witness :
    (handleSubmit ⟨⟨[' '], "a@b.com".data, []⟩, ⟨none, none, none⟩, false, none⟩ .ok).invoked
      = false ∧
    ((handleSubmit ⟨⟨[' '], "a@b.com".data, []⟩, ⟨none, none, none⟩, false, none⟩
      .ok).final.errors.name).isSome = true := by
  have h := contact_submit_blocked
    ⟨⟨[' '], "a@b.com".data, []⟩, ⟨none, none, none⟩, false, none⟩ .ok rfl
    (Or.inl (by decide))
  exact ⟨h.1, h.2.2.2.1 (by decide)⟩

/-- C1: submitting a form that passes validation invokes the submission
operation and passes through an in-flight state (`isSubmitting = true`,
status reset, fields still present — the submit control is disabled there).
On success the settled state carries `success` (the success message
renders), all three fields are cleared, and the control is re-enabled; on a
forced failure the settled state carries `error` (the error message
renders), every field value is exactly as before, and the control is
re-enabled. -/
theorem contact_submit_valid_flow (st : ContactState)
    (hv : errorsEmpty (validateForm st.formData) = true) :
    (handleSubmit st .ok).invoked = true ∧
    (handleSubmit st .fail).invoked = true ∧
    (∃ mid, (handleSubmit st .ok).duringSubmit = some mid ∧
      (handleSubmit st .fail).duringSubmit = some mid ∧
      mid.isSubmitting = true ∧ mid.submitStatus = none ∧
      mid.formData = st.formData) ∧
    (handleSubmit st .ok).final.submitStatus = some .success ∧
    (handleSubmit st .ok).final.formData = emptyFormData ∧
    (handleSubmit st .ok).final.isSubmitting = false ∧
    (handleSubmit st .fail).final.submitStatus = some .error ∧
    (handleSubmit st .fail).final.formData = st.formData ∧
    (handleSubmit st .fail).final.isSubmitting = false := by
  unfold handleSubmit
  simp only [hv, Bool.not_true]
  exact ⟨rfl, rfl, ⟨_, rfl, rfl, rfl, rfl, rfl⟩, rfl, rfl, rfl, rfl, rfl, rfl⟩

/-- C1 witness: the theorem applied to the idle state holding the valid
example form `{name: "A", email: "a@b.com", message: "hi"}`. -/
theorem contact_submit_valid_flow_witness :
    (handleSubmit ⟨⟨"A".data, "a@b.com".data, "hi".data⟩, ⟨none, none, none⟩, false, none⟩
      .ok).final.formData = emptyFormData ∧
    (handleSubmit ⟨⟨"A".data, "a@b.com".data, "hi".data⟩, ⟨none, none, none⟩, false, none⟩
      .fail).final.formData = ⟨"A".data, "a@b.com".data, "hi".data⟩ := by
  have h := contact_submit_valid_flow
    ⟨⟨"A".data, "a@b.com".data, "hi".data⟩, ⟨none, none, none⟩, false, none⟩ (by decide)
  exact ⟨h.2.2.2.2.1, h.2.2.2.2.2.2.2.1⟩

/-- C4: on theme-manager initialization, a persisted preference (written by
the toggle, hence `"dark"` or `"light"`) alone decides the applied theme —
the system color-scheme preference is ignored; the system preference is
consulted exactly when no persisted value exists. -/
theorem theme_init_persisted_wins (saved : Option (List Char)) (sys sys2 : Bool)
    (h : saved = some "dark".data ∨ saved = some "light".data) :
    themeInitDark saved sys = (saved == some "dark".data) ∧
    themeInitDark saved sys = themeInitDark saved sys2 ∧
    themeInitDark none sys = sys := by
  rcases h with h | h <;> subst h <;> cases sys <;> cases sys2 <;> decide

/-- C4 witness: the theorem applied to a persisted `"light"` value under a
dark system preference. -/
theorem theme_init_persisted_wins_witness :
    themeInitDark (some "light".data) true = (some "light".data == some "dark".data) ∧
    themeInitDark (some "light".data) true = themeInitDark (some "light".data) false ∧
    themeInitDark none true = true :=
  theme_init_persisted_wins (some "light".data) true false (Or.inr rfl)

/-- C5: from every theme state, toggling twice returns the displayed theme
to its original value, and after each single toggle the persisted value
equals the displayed theme. -/
theorem theme_toggle_parity (st : ThemeState) :
    (toggleTheme (toggleTheme st)).dark = st.dark ∧
    (toggleTheme st).saved = some (displayedTheme (toggleTheme st)) ∧
    (toggleTheme (toggleTheme st)).saved
      = some (displayedTheme (toggleTheme (toggleTheme st))) := by
  cases hd : st.dark <;> simp [toggleTheme, displayedTheme, hd]

/-- C10: an input change on any field stores the new value, removes that
field's error unconditionally — even when the new value is still invalid —
and never populates an error on any field: every field's error afterwards
is either `none` or exactly what it was before. -/
theorem contact_change_clears_error (st : ContactState) (f : Field) (v : List Char) :
    (handleChange st f v).formData = setFormField st.formData f v ∧
    getError (handleChange st f v).errors f = none ∧
    (∀ g : Field, getError (handleChange st f v).errors g = none ∨
      getError (handleChange st f v).errors g = getError st.errors g) := by
  unfold handleChange
  by_cases h : (getError st.errors f).isSome
  · simp only [h, if_true]
    refine ⟨trivial, ?_, ?_⟩
    · cases f <;> rfl
    · intro g
      cases f <;> cases g <;> simp [getError, clearError]
  · simp only [h, if_false]
    refine ⟨trivial, ?_, fun g => Or.inr rfl⟩
    exact Option.not_isSome_iff_eq_none.mp h

theorem timelineObsStep_unobserved (e : ObservedElem) (h : e.observed = false)
    (b : Bool) : timelineObsStep e b = e := by
  unfold timelineObsStep
  rw [h]
  simp

theorem obsRun_timeline_unobserved (events : List Bool) (e : ObservedElem)
    (h : e.observed = false) : obsRun timelineObsStep e events = e := by
  induction events generalizing e with
  | nil => rfl
  | cons b bs ih =>
    show obsRun timelineObsStep (timelineObsStep e b) bs = e
    rw [timelineObsStep_unobserved e h b]
    exact ih e h

theorem timelineObsStep_visible (e : ObservedElem) (b : Bool)
    (h : e.visible = true) : (timelineObsStep e b).visible = true := by
  unfold timelineObsStep
  split
  · rfl
  · exact h

theorem experienceObsStep_visible (e : ObservedElem) (b : Bool)
    (h : e.visible = true) : (experienceObsStep e b).visible = true := by
  unfold experienceObsStep
  split
  · rfl
  · exact h

/-- C6 counterexample: an element of the React `Experience` animator that
has just been marked visible is still observed, and a second intersecting
callback performs the marking action on it again (the action has then run
twice), contrary to the claim that observation stops and the marking fires
at most once per element. -/
theorem experience_observer_counterexample :
    ¬ ((experienceObsStep ⟨true, false, 0⟩ true).observed = false) ∧
    (experienceObsStep (experienceObsStep ⟨true, false, 0⟩ true) true).markCount = 2 := by
  decide

/-- C6 amended: for the `personal.js` observers (skill, timeline, section),
marking an observed element visible unobserves it, the marking action runs
exactly once, and every later intersection event leaves the element
unchanged; the React `Experience` and `Skills` observers never unobserve
and re-run the (state-idempotent) marking on later intersecting events. -/
theorem persona_observer_marks_once (e : ObservedElem) (h : e.observed = true) :
    (timelineObsStep e true).visible = true ∧
    (timelineObsStep e true).observed = false ∧
    (timelineObsStep e true).markCount = e.markCount + 1 ∧
    (∀ events : List Bool,
      obsRun timelineObsStep (timelineObsStep e true) events = timelineObsStep e true) := by
  have hstep : timelineObsStep e true = ⟨false, true, e.markCount + 1⟩ := by
    unfold timelineObsStep
    rw [h]
    simp
  rw [hstep]
  exact ⟨rfl, rfl, rfl, fun events => obsRun_timeline_unobserved events _ rfl⟩

/-- C6 witness: the amended theorem applied to a freshly observed element
and the event sequence [intersecting, not-intersecting]. -/
theorem persona_observer_marks_once_witness :
    (timelineObsStep ⟨true, false, 0⟩ true).observed = false ∧
    obsRun timelineObsStep (timelineObsStep ⟨true, false, 0⟩ true) [true, false]
      = timelineObsStep ⟨true, false, 0⟩ true := by
  have h := persona_observer_marks_once ⟨true, false, 0⟩ rfl
  exact ⟨h.2.1, h.2.2.2 [true, false]⟩

/-- C7: a reveal-animated element, once marked visible, stays visible under
every later sequence of intersection events — in both the React
`Experience` observer and the `personal.js` timeline observer, events
reporting the element as not intersecting (or any events at all) never
remove the visible state. -/
theorem reveal_visible_persists (e : ObservedElem) (events : List Bool)
    (h : e.visible = true) :
    (obsRun experienceObsStep e events).visible = true ∧
    (obsRun timelineObsStep e events).visible = true := by
  constructor
  · induction events generalizing e with
    | nil => exact h
    | cons b bs ih => exact ih (experienceObsStep e b) (experienceObsStep_visible e b h)
  · induction events generalizing e with
    | nil => exact h
    | cons b bs ih => exact ih (timelineObsStep e b) (timelineObsStep_visible e b h)

/-- C7 witness: a visible element stays visible across the event sequence
[not-intersecting, intersecting, not-intersecting]. -/
theorem reveal_visible_persists_witness :
    (obsRun experienceObsStep ⟨true, true, 1⟩ [false, true, false]).visible = true ∧
    (obsRun timelineObsStep ⟨false, true, 1⟩ [false, true, false]).visible = true :=
  ⟨(reveal_visible_persists ⟨true, true, 1⟩ [false, true, false] rfl).1,
   (reveal_visible_persists ⟨false, true, 1⟩ [false, true, false] rfl).2⟩

/-- C8 counterexample: in the `personal.js` gallery, clicking the
"E-commerce Platform" card while the "Personal Portfolio" modal is attached
appends a second modal instead of replacing the first — two modals are
attached at once, contrary to the claimed at-most-one invariant. -/
theorem persona_modal_stacking_counterexample :
    ¬ ((personaCardClick (personaCardClick [] "Personal Portfolio".data)
        "E-commerce Platform".data).length ≤ 1) := by
  decide

/-- C8 amended: in the React `Projects` component, every reachable gallery
state has at most one open modal, and clicking a card — also while another
project's modal is open — simply rebinds the single modal to the clicked
project; the `personal.js` gallery instead appends a fresh modal element
per card click, so its modals can stack. -/
theorem gallery_single_modal (events : List GalleryEvent) (st : GalleryState)
    (p : List Char) :
    openModalCount (galleryRun events) ≤ 1 ∧
    handleProjectClick st p = ⟨some p, true⟩ ∧
    openModalCount (handleProjectClick st p) = 1 := by
  refine ⟨?_, rfl, rfl⟩
  unfold openModalCount
  split
  · exact Nat.le_refl 1
  · exact Nat.zero_le 1

theorem typeRun_inv (src : List Char) (n : Nat) :
    (typeRun src n).i ≤ src.length ∧
    ((typeRun src n).done = false → (typeRun src n).disp = src.take (typeRun src n).i) ∧
    ((typeRun src n).done = true →
      (typeRun src n).i = src.length ∧ (typeRun src n).disp = src ++ cursorMarker) := by
  induction n with
  | zero =>
    exact ⟨Nat.zero_le _, fun _ => rfl, fun h => nomatch h⟩
  | succ n ih =>
    obtain ⟨h1, h2, h3⟩ := ih
    by_cases hd : (typeRun src n).done
    · have hstep : typeRun src (n + 1) = typeRun src n := by
        show typeWriterStep src (typeRun src n) = typeRun src n
        simp [typeWriterStep, hd]
      rw [hstep]
      exact ⟨h1, h2, h3⟩
    · rw [Bool.not_eq_true] at hd
      by_cases hi : (typeRun src n).i < src.length
      · have hstep : typeRun src (n + 1) =
            ⟨(typeRun src n).i + 1,
              (typeRun src n).disp ++ [src.getD (typeRun src n).i ' '], false⟩ := by
          show typeWriterStep src (typeRun src n) = _
          simp [typeWriterStep, hd, hi]
        rw [hstep]
        refine ⟨hi, fun _ => ?_, fun h => nomatch h⟩
        show (typeRun src n).disp ++ [src.getD (typeRun src n).i ' ']
          = src.take ((typeRun src n).i + 1)
        rw [h2 hd, List.getD_eq_getElem src ' ' hi,
          ← List.take_concat_get src _ hi, List.concat_eq_append]
      · have hieq : (typeRun src n).i = src.length := by omega
        have hstep : typeRun src (n + 1) =
            ⟨(typeRun src n).i, (typeRun src n).disp ++ cursorMarker, true⟩ := by
          show typeWriterStep src (typeRun src n) = _
          simp [typeWriterStep, hd, hi]
        rw [hstep]
        refine ⟨h1, fun h => (nomatch h), fun _ => ⟨hieq, ?_⟩⟩
        show (typeRun src n).disp ++ cursorMarker = src ++ cursorMarker
        rw [h2 hd, hieq, List.take_length]

/-- C9: throughout the typing effect the revealed-character count stays
between 0 and the source-string length; while typing is unfinished the
displayed text is exactly the prefix of that length; every tick with the
count below the length increments it by exactly 1; the tick at which the
count has reached the length appends the terminal cursor marker and marks
the effect finished; and once finished, further ticks change nothing. -/
theorem typing_effect_invariant (src : List Char) (n : Nat) :
    (typeRun src n).i ≤ src.length ∧
    ((typeRun src n).done = false → (typeRun src n).disp = src.take (typeRun src n).i) ∧
    ((typeRun src n).i < src.length →
      (typeWriterStep src (typeRun src n)).i = (typeRun src n).i + 1) ∧
    ((typeRun src n).done = false → (typeRun src n).i = src.length →
      typeWriterStep src (typeRun src n) = ⟨src.length, src ++ cursorMarker, true⟩) ∧
    ((typeRun src n).done = true →
      (typeRun src n).disp = src ++ cursorMarker ∧
      typeWriterStep src (typeRun src n) = typeRun src n) := by
  obtain ⟨h1, h2, h3⟩ := typeRun_inv src n
  refine ⟨h1, h2, ?_, ?_, ?_⟩
  · intro hi
    have hd : (typeRun src n).done = false := by
      cases hdone : (typeRun src n).done
      · rfl
      · exact absurd ((h3 hdone).1 ▸ hi) (Nat.lt_irrefl _)
    simp [typeWriterStep, hd, hi]
  · intro hd hieq
    have hni : ¬ (typeRun src n).i < src.length := by omega
    simp [typeWriterStep, hd, hni, hieq, h2 hd, List.take_length]
  · intro hd
    exact ⟨(h3 hd).2, by simp [typeWriterStep, hd]⟩

/-- C9 witness: after three ticks on the hero string the count is within
bounds and the displayed text is the three-character prefix; a finished
state is a fixed point of the tick. -/
theorem typing_effect_invariant_witness :
    (typeRun heroFullText 3).i ≤ heroFullText.length ∧
    (typeRun heroFullText 3).disp = heroFullText.take (typeRun heroFullText 3).i := by
  have h := typing_effect_invariant heroFullText 3
  exact ⟨h.1, h.2.1 (by decide)⟩

end Portfolio
